import Mathlib

/-!
Verification of the reconnection / transport-selection engine of
`src/autobahn/twisted/component.py`.

The file shallowly embeds the module: pure helpers (`_unique_list`,
`_create_transport_serializer(s)`, `_create_transport_factory`,
`_create_transport_endpoint`, `_check_native_endpoint`, `_run` argument
checking) become Lean functions over a small model of the Python values
involved, and the re-connect loop of `Component.start` becomes a fuel-indexed
step relation producing a trace of events (each event is either an actual
connection attempt on a transport index or a skip of an ineligible index).

The `Transport` descriptor class and the connection-attempt wrapper
(`_connect_once`, `_can_reconnect`) live in `autobahn/wamp/component.py`,
which is part of the repository but not among the provided sources; those
parts are modelled from the specification and flagged as such in their doc
comments.  The outcome of each actual network connect is external input and
is supplied to the loop as an oracle `Nat → Outcome` giving the result of the
k-th attempt overall.
-/

/-- Model of the Python exception values the re-connect loop of
`Component.start` distinguishes: `ApplicationError` (carrying its WAMP error
URI), `OpenSSL.SSL.Error` (carrying the OpenSSL error queue, a list of
(lib, function, reason) string triples, cf. the comment at lines 349-356 of
the source), `RuntimeError`, `ValueError`, `AssertionError` (from the
`assert False` branches), and any other exception.  We model the module as
imported with TLS support available (`_TLS = True`), so `_is_ssl_error`
recognises `sslError` values. -/
inductive WErr where
  | applicationError (error : String)
  | sslError (reasons : List (String × String × String))
  | runtimeError (msg : String)
  | valueError (msg : String)
  | assertionError
  | otherError (msg : String)
deriving Repr, DecidableEq

/-- Mirrors `isinstance(e, ApplicationError)` (source line 342). -/
def WErr.isApplicationError : WErr → Bool
  | WErr.applicationError _ => true
  | _ => false

/-- Mirrors `_is_ssl_error(e)` (source lines 66-76) with `_TLS = True`. -/
def WErr.isSslError : WErr → Bool
  | WErr.sslError _ => true
  | _ => false

/-- Modelled from the spec: the Transport Descriptor class is defined in
`autobahn/wamp/component.py`, which is not among the provided sources.
Following the spec data model: `index` (position in the configured list),
`retries_remaining` (an integer budget, or unbounded, here `none`),
`attempt_count` (monotone counter), and a permanent `failed` flag (named
`markedFailed` here, set by `mark_failed`, which embeds the
`transport.failed()` call at source line 360). -/
structure Transport where
  idx : Nat
  retriesRemaining : Option Nat
  attemptCount : Nat
  markedFailed : Bool
deriving Repr, DecidableEq

instance : Inhabited Transport := ⟨⟨0, some 0, 0, false⟩⟩

/-- Modelled from the spec: `can_retry() -> bool: true iff not failed and
(retries_remaining is unbounded or > 0)`.  The source calls this
`transport.can_reconnect()` (line 325). -/
def Transport.can_reconnect (t : Transport) : Bool :=
  !t.markedFailed &&
    (match t.retriesRemaining with
     | none => true
     | some k => decide (0 < k))

/-- Modelled from the spec: `record_attempt(): increments attempt_count;
called immediately before each connect`. -/
def Transport.record_attempt (t : Transport) : Transport :=
  { t with attemptCount := t.attemptCount + 1 }

/-- Modelled from the spec: `record_failure(): decrements retries_remaining
if bounded`. -/
def Transport.record_failure (t : Transport) : Transport :=
  match t.retriesRemaining with
  | none => t
  | some k => { t with retriesRemaining := some (k - 1) }

/-- Modelled from the spec: `mark_failed(): sets failed = true permanently`.
This embeds the `transport.failed()` call at source line 360. -/
def Transport.mark_failed (t : Transport) : Transport :=
  { t with markedFailed := true }

/-- Result of one actual connect-and-run cycle (`self._connect_once`), which
is external input to the loop: either the session concluded successfully or
an exception was raised. -/
inductive Outcome where
  | success
  | failure (e : WErr)

/-- Trace event of the re-connect loop: one iteration either actually
attempts a connection on the transport at `idx` (the `can_reconnect()`
branch, lines 325-370) or skips an ineligible transport (the `else` branch,
lines 371-376). -/
inductive Ev where
  | attempted (idx : Nat)
  | skipped (idx : Nat)
deriving Repr, DecidableEq

/-- The transport index an event touches. -/
def Ev.idx : Ev → Nat
  | Ev.attempted i => i
  | Ev.skipped i => i

/-- Final result of `Component.start`: the Deferred fires with `None`
(`completed`, either after a successful session or after quiet exhaustion),
or errbacks with a raised exception (`raised`).  `outOfFuel` marks a run
whose fuel ran out while the loop was still re-connecting.  Terminal results
carry the final transport states (they persist on `self._transports`). -/
inductive StartResult where
  | completed (ts : List Transport)
  | raised (e : WErr) (ts : List Transport)
  | outOfFuel (ts : List Transport) (cursor : Nat) (k : Nat)
deriving Repr, DecidableEq

/-- Result of one iteration of the `while reconnect:` loop: either the loop
terminates (`halt`) or continues with updated transport states and attempt
counter (`next`); either way exactly one trace event is produced. -/
inductive StepRes where
  | halt (r : StartResult) (ev : Ev)
  | next (ts : List Transport) (k : Nat) (ev : Ev)
deriving Repr, DecidableEq

/-- The event produced by one loop iteration. -/
def StepRes.ev : StepRes → Ev
  | StepRes.halt _ e => e
  | StepRes.next _ _ e => e

/-- One iteration of the `while reconnect:` loop of `Component.start`
(source lines 319-376).  `cursor` is the position of the `itertools.cycle`
iterator over `self._transports` (the current transport is index
`cursor % length`, line 321); `k` counts actual connection attempts so far,
indexing the outcome oracle `oc`.

Branches, mirroring the source:
* `transport.can_reconnect()` true: attempt a connect.  `record_attempt` is
  applied (modelled from the spec: the attempt wrapper `_connect_once`, not
  among the provided sources, records each attempt on its descriptor).
  - success: `reconnect = False`, loop ends normally (line 369-370);
  - `ApplicationError` whose error is `wamp.error.no_such_realm`:
    `reconnect = False` and re-`raise` (lines 342-346); any other
    `ApplicationError` falls through the `if` without re-raising, so the
    loop just continues (line 347);
  - SSL error: `transport.failed()` is called once per entry of the OpenSSL
    error queue (lines 357-360), then the loop continues;
  - anything else: re-`raise` (lines 361-368).
  On each failed attempt that does not terminate the loop,
  `record_failure` is applied (modelled from the spec: on a non-terminal
  disposition the engine calls `descriptor.record_failure()` before looping
  back; `retries_remaining` is decremented on each failed attempt).
* otherwise: if no transport at all can reconnect (`self._can_reconnect()`,
  modelled from the spec as: some descriptor in the list can still retry),
  `reconnect = False` and the loop ends quietly (lines 371-376); else the
  ineligible transport is skipped. -/
def startStep (oc : Nat → Outcome) (ts : List Transport) (cursor k : Nat) :
    StepRes :=
  let idx := cursor % ts.length
  let t := ts.getD idx default
  if t.can_reconnect then
    let t1 := t.record_attempt
    match oc k with
    | Outcome.success =>
        StepRes.halt (StartResult.completed (ts.set idx t1)) (Ev.attempted idx)
    | Outcome.failure (WErr.applicationError err) =>
        if err = "wamp.error.no_such_realm" then
          StepRes.halt
            (StartResult.raised (WErr.applicationError err) (ts.set idx t1))
            (Ev.attempted idx)
        else
          StepRes.next (ts.set idx t1.record_failure) (k + 1) (Ev.attempted idx)
    | Outcome.failure (WErr.sslError reasons) =>
        StepRes.next
          (ts.set idx
            ((reasons.foldl (fun a _ => a.mark_failed) t1).record_failure))
          (k + 1) (Ev.attempted idx)
    | Outcome.failure e =>
        StepRes.halt (StartResult.raised e (ts.set idx t1)) (Ev.attempted idx)
  else
    if ts.any Transport.can_reconnect then
      StepRes.next ts k (Ev.skipped idx)
    else
      StepRes.halt (StartResult.completed ts) (Ev.skipped idx)

/-- The `while reconnect:` loop of `Component.start`, bounded by `fuel`
iterations, returning the final result together with the chronological trace
of events.  The cursor advances by exactly one per iteration (one `next()`
of the cycle iterator per loop pass). -/
def startRun (oc : Nat → Outcome) :
    Nat → List Transport → Nat → Nat → StartResult × List Ev
  | 0, ts, cursor, k => (StartResult.outOfFuel ts cursor k, [])
  | Nat.succ fuel, ts, cursor, k =>
    match startStep oc ts cursor k with
    | StepRes.halt r ev => (r, [ev])
    | StepRes.next ts' k' ev =>
        let nxt := startRun oc fuel ts' (cursor + 1) k'
        (nxt.1, ev :: nxt.2)




/-- Idempotence: `mark_failed`, so folding it over the OpenSSL error queue
(the `for` loop at source lines 357-360) just sets the flag once the queue is
non-empty. -/
theorem foldl_mark_failed_of_marked :
    ∀ (rs : List (String × String × String)) (t : Transport),
      rs.foldl (fun a _ => a.mark_failed) t.mark_failed = t.mark_failed
  | [], _ => rfl
  | _ :: rs, t => foldl_mark_failed_of_marked rs t

/-- Folding `mark_failed` over a non-empty OpenSSL error queue marks the
transport failed. -/
theorem foldl_mark_failed (t : Transport)
    (rs : List (String × String × String)) (h : rs ≠ []) :
    rs.foldl (fun a _ => a.mark_failed) t = t.mark_failed := by
  cases rs with
  | nil => exact absurd rfl h
  | cons r rs => exact foldl_mark_failed_of_marked rs t

/-- Every loop iteration touches exactly the transport the cycle cursor
points at. -/
theorem startStep_ev_idx (oc : Nat → Outcome) (ts : List Transport)
    (cursor k : Nat) :
    (startStep oc ts cursor k).ev.idx = cursor % ts.length := by
  simp only [startStep]
  repeat' split
  all_goals rfl

/-- A loop iteration that continues preserves the number of transports
(`self._transports` is never resized). -/
theorem startStep_next_length (oc : Nat → Outcome) (ts : List Transport)
    (cursor k : Nat) (ts' : List Transport) (k' : Nat) (ev : Ev)
    (h : startStep oc ts cursor k = StepRes.next ts' k' ev) :
    ts'.length = ts.length := by
  simp only [startStep] at h
  repeat' split at h
  all_goals first
    | (cases h; simp [List.length_set])
    | cases h

/-- The index sequence of the whole event trace (attempts and skips
together) is exactly the consecutive cyclic sequence starting at `cursor`:
the cycle iterator advances by exactly one position per loop iteration. -/
theorem startRun_trace_idx (oc : Nat → Outcome) :
    ∀ (fuel : Nat) (ts : List Transport) (cursor k : Nat),
      ((startRun oc fuel ts cursor k).2).map Ev.idx =
        (List.range ((startRun oc fuel ts cursor k).2).length).map
          (fun j => (cursor + j) % ts.length)
  | 0, ts, cursor, k => by simp [startRun]
  | Nat.succ fuel, ts, cursor, k => by
    have hidx := startStep_ev_idx oc ts cursor k
    rcases hstep : startStep oc ts cursor k with ⟨r, ev⟩ | ⟨ts', k', ev⟩
    · rw [hstep] at hidx
      simp only [StepRes.ev] at hidx
      simp only [startRun, hstep]
      have h1 : List.range 1 = [0] := rfl
      simp [hidx, h1]
    · rw [hstep] at hidx
      simp only [StepRes.ev] at hidx
      have hlen : ts'.length = ts.length :=
        startStep_next_length oc ts cursor k ts' k' ev hstep
      have IH := startRun_trace_idx oc fuel ts' (cursor + 1) k'
      simp only [startRun, hstep]
      rw [List.map_cons, hidx, IH, hlen, List.length_cons,
        List.range_succ_eq_map, List.map_cons, List.map_map]
      refine congrArg₂ _ (by simp) (List.map_congr_left ?_)
      intro j _
      simp only [Function.comp]
      congr 1
      omega

/-- A failed attempt whose exception is neither an `ApplicationError` nor an
SSL error hits the final `else: raise` branch (source lines 361-368) and
halts the loop, re-raising the exception. -/
theorem startStep_fail_other (oc : Nat → Outcome) (ts : List Transport)
    (cursor k : Nat) (e : WErr)
    (ht : (ts.getD (cursor % ts.length) default).can_reconnect = true)
    (he : oc k = Outcome.failure e)
    (ha : e.isApplicationError = false)
    (hs : e.isSslError = false) :
    startStep oc ts cursor k =
      StepRes.halt
        (StartResult.raised e
          (ts.set (cursor % ts.length)
            ((ts.getD (cursor % ts.length) default).record_attempt)))
        (Ev.attempted (cursor % ts.length)) := by
  cases e <;>
    simp_all [startStep, WErr.isApplicationError, WErr.isSslError]

/-- Lifting of `startStep_fail_other` to the whole run: the loop terminates
at once with the re-raised exception, after exactly this one attempt. -/
theorem startRun_raises_other (oc : Nat → Outcome) (fuel : Nat)
    (ts : List Transport) (cursor k : Nat) (e : WErr)
    (ht : (ts.getD (cursor % ts.length) default).can_reconnect = true)
    (he : oc k = Outcome.failure e)
    (ha : e.isApplicationError = false)
    (hs : e.isSslError = false) :
    startRun oc (fuel + 1) ts cursor k =
      (StartResult.raised e
        (ts.set (cursor % ts.length)
          ((ts.getD (cursor % ts.length) default).record_attempt)),
        [Ev.attempted (cursor % ts.length)]) := by
  have h := startStep_fail_other oc ts cursor k e ht he ha hs
  simp [startRun, h]

/-- C1 counterexample: an `ApplicationError` whose error URI is not
`wamp.error.no_such_realm` (here `wamp.error.not_authorized`) is neither an
SSL error nor an `ApplicationError` with error `wamp.error.no_such_realm`,
so the claim says the loop must stop and propagate it; but the code falls
through the inner `if` at line 347 without re-raising, so the loop keeps
retrying: three fuel units produce three attempts on the same transport and
no propagated failure. -/
theorem C1_counterexample :
    startRun
        (fun _ => Outcome.failure
          (WErr.applicationError "wamp.error.not_authorized")) 3
        [⟨0, none, 0, false⟩] 0 0 =
      (StartResult.outOfFuel [⟨0, none, 3, false⟩] 3 3,
        [Ev.attempted 0, Ev.attempted 0, Ev.attempted 0]) := by
  decide

/-- C1 (amended): for every failure raised from a connection attempt that is
neither an SSL error nor an `ApplicationError` of any kind, the start loop
stops at once and propagates that failure upward, never retrying it: the run
ends with that exception raised and the trace records exactly this one
attempt.  (An `ApplicationError` with an error other than
`wamp.error.no_such_realm` is instead retried silently, see the
counterexample.) -/
theorem C1_unclassified_terminal (oc : Nat → Outcome) (fuel : Nat)
    (ts : List Transport) (cursor k : Nat) (e : WErr)
    (ht : (ts.getD (cursor % ts.length) default).can_reconnect = true)
    (he : oc k = Outcome.failure e)
    (ha : e.isApplicationError = false)
    (hs : e.isSslError = false) :
    startRun oc (fuel + 1) ts cursor k =
      (StartResult.raised e
        (ts.set (cursor % ts.length)
          ((ts.getD (cursor % ts.length) default).record_attempt)),
        [Ev.attempted (cursor % ts.length)]) :=
  startRun_raises_other oc fuel ts cursor k e ht he ha hs

/-- Witness for C1: a `RuntimeError` on the first attempt propagates at once
and the trace shows a single attempt. -/
theorem C1_witness :
    startRun (fun _ => Outcome.failure (WErr.runtimeError "boom")) 4
        [⟨0, none, 0, false⟩] 0 0 =
      (StartResult.raised (WErr.runtimeError "boom") [⟨0, none, 1, false⟩],
        [Ev.attempted 0]) := by
  have h := C1_unclassified_terminal
    (fun _ => Outcome.failure (WErr.runtimeError "boom")) 3
    [⟨0, none, 0, false⟩] 0 0 (WErr.runtimeError "boom")
    (by decide) rfl rfl rfl
  exact h.trans (by decide)

/-- C2: given two configured transports `[A, B]`, if the first connection
attempt (on A) raises an `ApplicationError` with error
`wamp.error.no_such_realm` (the Fatal classification, source lines 342-346),
`start` rejects with that very error and the trace shows that no attempt on
B (index 1) ever occurs. -/
theorem C2_fatal_short_circuit (oc : Nat → Outcome) (A B : Transport)
    (fuel : Nat) (hA : A.can_reconnect = true)
    (h0 : oc 0 = Outcome.failure
      (WErr.applicationError "wamp.error.no_such_realm")) :
    startRun oc (fuel + 1) [A, B] 0 0 =
      (StartResult.raised (WErr.applicationError "wamp.error.no_such_realm")
        [A.record_attempt, B],
        [Ev.attempted 0]) := by
  have hstep : startStep oc [A, B] 0 0 =
      StepRes.halt
        (StartResult.raised (WErr.applicationError "wamp.error.no_such_realm")
          [A.record_attempt, B])
        (Ev.attempted 0) := by
    simp [startStep, hA, h0]
  simp [startRun, hstep]

/-- Witness for C2: a concrete fatal first attempt on A; B is never
attempted. -/
theorem C2_witness :
    startRun
        (fun _ => Outcome.failure
          (WErr.applicationError "wamp.error.no_such_realm")) 5
        [⟨0, none, 0, false⟩, ⟨1, none, 0, false⟩] 0 0 =
      (StartResult.raised (WErr.applicationError "wamp.error.no_such_realm")
        [⟨0, none, 1, false⟩, ⟨1, none, 0, false⟩],
        [Ev.attempted 0]) := by
  have h := C2_fatal_short_circuit
    (fun _ => Outcome.failure
      (WErr.applicationError "wamp.error.no_such_realm"))
    ⟨0, none, 0, false⟩ ⟨1, none, 0, false⟩ 4 (by decide) rfl
  exact h.trans (by decide)

/-- C3: transports `[A, B]` both with unbounded retries; A's attempt raises
an SSL error (the TransportLocal classification, source lines 348-360, with
a non-empty OpenSSL error queue).  A is marked failed permanently after this
first failure (final state has `markedFailed = true` and A is never
attempted again), the engine continues without propagating the error, and
B's success resolves `start` successfully. -/
theorem C3_transport_local (rs : List (String × String × String))
    (hrs : rs ≠ []) (oc : Nat → Outcome)
    (h0 : oc 0 = Outcome.failure (WErr.sslError rs))
    (h1 : oc 1 = Outcome.success) (fuel : Nat) :
    startRun oc (fuel + 2)
        [⟨0, none, 0, false⟩, ⟨1, none, 0, false⟩] 0 0 =
      (StartResult.completed [⟨0, none, 1, true⟩, ⟨1, none, 1, false⟩],
        [Ev.attempted 0, Ev.attempted 1]) := by
  have hfold :
      rs.foldl (fun a _ => a.mark_failed)
          (Transport.record_attempt ⟨0, none, 0, false⟩) =
        ⟨0, none, 1, true⟩ :=
    foldl_mark_failed _ rs hrs
  have hstep0 : startStep oc [⟨0, none, 0, false⟩, ⟨1, none, 0, false⟩] 0 0 =
      StepRes.next [⟨0, none, 1, true⟩, ⟨1, none, 0, false⟩] 1
        (Ev.attempted 0) := by
    simp [startStep, h0, hfold, Transport.can_reconnect,
      Transport.record_failure]
  have hstep1 : startStep oc [⟨0, none, 1, true⟩, ⟨1, none, 0, false⟩] 1 1 =
      StepRes.halt
        (StartResult.completed [⟨0, none, 1, true⟩, ⟨1, none, 1, false⟩])
        (Ev.attempted 1) := by
    simp [startStep, h1, Transport.can_reconnect, Transport.record_attempt]
  simp [startRun, hstep0, hstep1]

/-- Witness for C3: a one-entry OpenSSL error queue on A's attempt, then B
succeeds. -/
theorem C3_witness :
    startRun
        (fun k => if k = 0
          then Outcome.failure (WErr.sslError [("SSL", "fn", "bad cert")])
          else Outcome.success) 2
        [⟨0, none, 0, false⟩, ⟨1, none, 0, false⟩] 0 0 =
      (StartResult.completed [⟨0, none, 1, true⟩, ⟨1, none, 1, false⟩],
        [Ev.attempted 0, Ev.attempted 1]) := by
  exact C3_transport_local [("SSL", "fn", "bad cert")] (by decide)
    (fun k => if k = 0
      then Outcome.failure (WErr.sslError [("SSL", "fn", "bad cert")])
      else Outcome.success) rfl rfl 0

/-- C4: if no configured transport can reconnect (each is marked failed or
has an exhausted retry budget), the loop ends on its first iteration via the
`self._can_reconnect()` check (source lines 371-376): `start` resolves
successfully (the Deferred fires with `None`, no error) and the trace
contains a single skip event — no connection attempt is ever made. -/
theorem C4_exhaustion_quiet (oc : Nat → Outcome) (ts : List Transport)
    (cursor k fuel : Nat) (h : ts.any Transport.can_reconnect = false) :
    startRun oc (fuel + 1) ts cursor k =
      (StartResult.completed ts, [Ev.skipped (cursor % ts.length)]) := by
  have ht : (ts.getD (cursor % ts.length) default).can_reconnect = false := by
    rcases Nat.lt_or_ge (cursor % ts.length) ts.length with hlt | hge
    · rw [List.getD_eq_getElem ts default hlt]
      have hmem := List.getElem_mem hlt
      rw [List.any_eq_false] at h
      simpa using h _ hmem
    · have hlen : ts.length = 0 := by
        rcases Nat.eq_zero_or_pos ts.length with h0 | hpos
        · exact h0
        · exact absurd (Nat.mod_lt cursor hpos) (Nat.not_lt.mpr hge)
      rw [List.getD_eq_default]
      · decide
      · omega
  rw [List.getD_eq_getElem?_getD] at ht
  have hstep : startStep oc ts cursor k =
      StepRes.halt (StartResult.completed ts)
        (Ev.skipped (cursor % ts.length)) := by
    simp [startStep, ht, h]
  simp [startRun, hstep]

/-- Witness for C4: one transport constructed with a retry budget of 0;
`start` resolves with no error and no connection attempt. -/
theorem C4_witness :
    startRun (fun _ => Outcome.success) 7 [⟨0, some 0, 0, false⟩] 0 0 =
      (StartResult.completed [⟨0, some 0, 0, false⟩], [Ev.skipped 0]) := by
  have h := C4_exhaustion_quiet (fun _ => Outcome.success)
    [⟨0, some 0, 0, false⟩] 0 0 6 (by decide)
  exact h.trans (by decide)

/-- C5: round-robin order.  For any configured transport list and any
sequence of attempt outcomes, the index sequence of the whole event trace of
a run (actual connection attempts interleaved with skips of transports that
cannot retry) is exactly the configured cyclic order 0, 1, …, n-1, 0, 1, …:
the cycle cursor advances by exactly one position per loop iteration and is
never reordered by success or failure history.  Erasing the skip events (the
transports ignored because they cannot retry) therefore leaves the actual
connection attempts in configured cyclic order, for as long as the loop
keeps running. -/
theorem C5_round_robin (oc : Nat → Outcome) (fuel : Nat)
    (ts : List Transport) :
    ((startRun oc fuel ts 0 0).2).map Ev.idx =
      (List.range ((startRun oc fuel ts 0 0).2).length).map
        (fun j => j % ts.length) := by
  simpa using startRun_trace_idx oc fuel ts 0 0

/-- Disposition applied to the failing transport descriptor by the
classification at source lines 342-360: an SSL error marks the transport
failed once per OpenSSL error-queue entry; any other exception leaves the
descriptor untouched. -/
def applyDisposition (e : WErr) (t : Transport) : Transport :=
  match e with
  | WErr.sslError reasons => reasons.foldl (fun a _ => a.mark_failed) t
  | _ => t

/-- Exceptions on which the loop of `Component.start` keeps going (the
non-terminal dispositions): an `ApplicationError` other than
`wamp.error.no_such_realm` (silently retried, line 347) and any SSL error
(transport-local, lines 348-360). -/
def WErr.nonTerminal : WErr → Bool
  | WErr.applicationError err => !(err = "wamp.error.no_such_realm")
  | WErr.sslError _ => true
  | _ => false

/-- C7: after every failed connection attempt whose disposition is not
terminal, the engine applies `record_failure` to the current transport
descriptor (on a bounded budget this decrements `retries_remaining`, see
`Transport.record_failure`) before looping back to select the next
transport: the rest of the run is exactly a run from the state in which the
descriptor at the cursor has been updated by `record_attempt`, the
disposition of the failure, and then `record_failure`. -/
theorem C7_record_failure_before_loop (oc : Nat → Outcome) (fuel : Nat)
    (ts : List Transport) (cursor k : Nat) (e : WErr)
    (ht : (ts.getD (cursor % ts.length) default).can_reconnect = true)
    (he : oc k = Outcome.failure e)
    (hnt : e.nonTerminal = true) :
    startRun oc (fuel + 1) ts cursor k =
      ((startRun oc fuel
          (ts.set (cursor % ts.length)
            ((applyDisposition e
              ((ts.getD (cursor % ts.length) default).record_attempt)).record_failure))
          (cursor + 1) (k + 1)).1,
        Ev.attempted (cursor % ts.length) ::
          (startRun oc fuel
            (ts.set (cursor % ts.length)
              ((applyDisposition e
                ((ts.getD (cursor % ts.length) default).record_attempt)).record_failure))
            (cursor + 1) (k + 1)).2) := by
  have hstep : startStep oc ts cursor k =
      StepRes.next
        (ts.set (cursor % ts.length)
          ((applyDisposition e
            ((ts.getD (cursor % ts.length) default).record_attempt)).record_failure))
        (k + 1) (Ev.attempted (cursor % ts.length)) := by
    cases e <;>
      simp_all [startStep, applyDisposition, WErr.nonTerminal]
  simp [startRun, hstep]

/-- Witness for C7: a bounded transport (budget 2) whose attempt fails with
an SSL error; the continuation state has the budget decremented to 1 (and
the transport marked failed by the disposition). -/
theorem C7_witness :
    startRun
        (fun _ => Outcome.failure (WErr.sslError [("SSL", "fn", "oops")])) 1
        [⟨0, some 2, 0, false⟩] 0 0 =
      (StartResult.outOfFuel [⟨0, some 1, 1, true⟩] 1 1, [Ev.attempted 0]) := by
  have h := C7_record_failure_before_loop
    (fun _ => Outcome.failure (WErr.sslError [("SSL", "fn", "oops")])) 0
    [⟨0, some 2, 0, false⟩] 0 0 (WErr.sslError [("SSL", "fn", "oops")])
    (by decide) rfl rfl
  exact h.trans (by decide)

/-- The success callback attached to each component Deferred in `_run`
(source lines 398-400): logs and returns the result value unchanged.  A
`Component.start` Deferred fires with `None`, modelled as `Unit`. -/
def component_success (arg : Unit) : Unit := arg

/-- The errback attached to each component Deferred in `_run` (source lines
402-405): logs the failure and returns `None` — a non-Failure value, so the
Deferred continues as a success. -/
def component_failure (_f : WErr) : Unit := ()

/-- The settled value of one component Deferred after
`txaio.add_callbacks(d, partial(component_success, c), component_failure)`
(source line 412): a success passes through `component_success`, a failure
is converted by `component_failure` into a plain success value. -/
def processedResult : Except WErr Unit → Except WErr Unit
  | Except.ok a => Except.ok (component_success a)
  | Except.error f => Except.ok (component_failure f)

/-- Model of `txaio.gather(dl, consume_exceptions=False)` (source line 414)
over the settle-states of the member Deferreds: `none` means a member has
not settled yet, in which case the aggregate has not settled either; once
every member has settled the aggregate fires, with the first failure if any
member failed (exceptions are not consumed) and with the list of results
otherwise. -/
def gatherList : List (Option (Except WErr Unit)) → Option (Except WErr (List Unit))
  | [] => some (Except.ok [])
  | none :: _ => none
  | some r :: rest =>
    match gatherList rest with
    | none => none
    | some (Except.error e) =>
      match r with
      | Except.error e0 => some (Except.error e0)
      | Except.ok _ => some (Except.error e)
    | some (Except.ok vs) =>
      match r with
      | Except.error e0 => some (Except.error e0)
      | Except.ok v => some (Except.ok (v :: vs))

/-- The aggregate Deferred of `_run` (source lines 408-414), as a function
of the raw settle-state of each component's `start` (`none`: still running;
`some (ok _)`: completed; `some (error e)`: failed): every member Deferred
first goes through `component_success`/`component_failure`, then all are
gathered.  `all_done` (which stops the reactor, lines 416-423) is attached
to the aggregate on both the callback and errback chains, so the reactor is
stopped exactly when this aggregate settles. -/
def runAggregate (rs : List (Option (Except WErr Unit))) :
    Option (Except WErr (List Unit)) :=
  gatherList (rs.map (Option.map processedResult))

/-- C6: the aggregate Deferred of `_run` (whose settling stops the hosting
reactor) settles exactly when every component's `start` has settled, and
when it settles it always succeeds: each individual failure has been
converted to a plain success by `component_failure`, never re-raised, so the
aggregate completion succeeds even if every component failed. -/
theorem C6_supervisor_aggregate (rs : List (Option (Except WErr Unit))) :
    runAggregate rs =
      (if rs.all Option.isSome
        then some (Except.ok (rs.map fun _ => ()))
        else none) := by
  induction rs with
  | nil => rfl
  | cons r rest ih =>
    cases r with
    | none => simp [runAggregate, gatherList]
    | some x =>
      cases x with
      | ok a =>
        simp only [runAggregate, List.map_cons, Option.map_some] at ih ⊢
        simp only [processedResult, gatherList, ih]
        by_cases hall : rest.all Option.isSome <;>
          simp [hall, component_success]
      | error e =>
        simp only [runAggregate, List.map_cons, Option.map_some] at ih ⊢
        simp only [processedResult, gatherList, ih]
        by_cases hall : rest.all Option.isSome <;>
          simp [hall, component_failure]

/-- Model of the value found under the `tls` key of a native endpoint
configuration: a Python `bool`, a `dict` (with its truthiness, i.e. whether
it is non-empty), a `CertificateOptions` instance, an
`IOpenSSLClientConnectionCreator` provider, or any other object. -/
inductive TlsConfig where
  | tlsBool (b : Bool)
  | tlsDict (nonempty : Bool)
  | tlsCertOptions
  | tlsConnectionCreator
  | tlsOther (descr : String)
deriving Repr, DecidableEq

/-- Python truthiness of a `tls` value, as tested by `if tls:` at source
line 190. -/
def TlsConfig.truthy : TlsConfig → Bool
  | TlsConfig.tlsBool b => b
  | TlsConfig.tlsDict nonempty => nonempty
  | _ => true

/-- Model of a native endpoint configuration dict.  The keys `host`, `port`,
`path`, `version`, `timeout` are carried as already-supplied values with the
source defaults applied (`version` defaults to 4, `timeout` to 10); absence
of a required key (a Python `KeyError`) is not modelled, no claim depends on
it. -/
structure EndpointDict where
  type_ : String
  host : String
  port : Nat
  path : String
  version : Nat
  timeout : Nat
  tls : Option TlsConfig
deriving Repr, DecidableEq

/-- Model of the `endpoint` entry of a transport configuration: an
`IStreamClientEndpoint` provider, a configuration dict, or any other
object. -/
inductive EndpointConfig where
  | stream
  | dict (d : EndpointDict)
  | other (descr : String)
deriving Repr, DecidableEq

/-- The Twisted client endpoint produced by `_create_transport_endpoint`. -/
inductive TEndpoint where
  | fromStream
  | ssl4 (host : String) (port : Nat) (timeout : Nat)
  | tcp4 (host : String) (port : Nat) (timeout : Nat)
  | tcp6 (host : String) (port : Nat) (timeout : Nat)
  | unixEp (path : String) (timeout : Nat)
deriving Repr, DecidableEq

/-- Model of `Component._check_native_endpoint` (source lines 257-278), the check run
when the Component is constructed: an `IStreamClientEndpoint` provider
passes; a dict passes unless its `tls` value (when present) is neither a
dict, nor a bool, nor an `IOpenSSLClientConnectionCreator` provider, nor a
`CertificateOptions`; anything else raises `ValueError`.  (The Python
messages quote the key names; the quotes are omitted here.) -/
def _check_native_endpoint : EndpointConfig → Except WErr Unit
  | EndpointConfig.stream => Except.ok ()
  | EndpointConfig.dict d =>
    match d.tls with
    | none => Except.ok ()
    | some (TlsConfig.tlsDict _) => Except.ok ()
    | some (TlsConfig.tlsBool _) => Except.ok ()
    | some TlsConfig.tlsConnectionCreator => Except.ok ()
    | some TlsConfig.tlsCertOptions => Except.ok ()
    | some (TlsConfig.tlsOther _) =>
      Except.error (WErr.valueError
        "tls configuration must be a dict, CertificateOptions or IOpenSSLClientConnectionCreator provider")
  | EndpointConfig.other _ =>
    Except.error (WErr.valueError
      "endpoint configuration must be a dict or IStreamClientEndpoint provider")

/-- The non-TLS TCP branch of `_create_transport_endpoint` (source lines
216-227): IPv4 and IPv6 connecting sockets, `assert False` otherwise.
`TCP6ClientEndpoint` is modelled as importable. -/
def _create_tcp_plain (d : EndpointDict) : Except WErr TEndpoint :=
  if d.version = 4 then Except.ok (TEndpoint.tcp4 d.host d.port d.timeout)
  else if d.version = 6 then Except.ok (TEndpoint.tcp6 d.host d.port d.timeout)
  else Except.error WErr.assertionError

/-- Model of `_create_transport_endpoint` (source lines 173-238), run at connect time
from `_connect_transport`: an `IStreamClientEndpoint` provider is adapted
directly; a `tcp` dict with truthy `tls` resolves the TLS context first
(connection-creator provider, `CertificateOptions`, or `True`; otherwise
`RuntimeError` for an unknown `tls` type) and then builds an
`SSL4ClientEndpoint` for version 4 but raises
`RuntimeError: TLS on IPv6 not implemented` for version 6 (there is no
`SSL6ClientEndpoint`), `assert False` for other versions; a `tcp` dict
without truthy `tls` builds a plain TCP socket; a `unix` dict builds a Unix
socket; any other `type` hits `assert False`.  The module is modelled with
TLS support installed (`_TLS = True`).  A non-dict, non-provider value would
fail the subscription `endpoint_config['type']`, modelled as `otherError`. -/
def _create_transport_endpoint : EndpointConfig → Except WErr TEndpoint
  | EndpointConfig.stream => Except.ok TEndpoint.fromStream
  | EndpointConfig.dict d =>
    if d.type_ = "tcp" then
      match d.tls with
      | some tls =>
        if tls.truthy then
          match tls with
          | TlsConfig.tlsConnectionCreator =>
            if d.version = 4 then
              Except.ok (TEndpoint.ssl4 d.host d.port d.timeout)
            else if d.version = 6 then
              Except.error (WErr.runtimeError "TLS on IPv6 not implemented")
            else Except.error WErr.assertionError
          | TlsConfig.tlsCertOptions =>
            if d.version = 4 then
              Except.ok (TEndpoint.ssl4 d.host d.port d.timeout)
            else if d.version = 6 then
              Except.error (WErr.runtimeError "TLS on IPv6 not implemented")
            else Except.error WErr.assertionError
          | TlsConfig.tlsBool _ =>
            if d.version = 4 then
              Except.ok (TEndpoint.ssl4 d.host d.port d.timeout)
            else if d.version = 6 then
              Except.error (WErr.runtimeError "TLS on IPv6 not implemented")
            else Except.error WErr.assertionError
          | _ =>
            Except.error (WErr.runtimeError
              "unknown type for tls configuration in transport")
        else _create_tcp_plain d
      | none => _create_tcp_plain d
    else if d.type_ = "unix" then
      Except.ok (TEndpoint.unixEp d.path d.timeout)
    else Except.error WErr.assertionError
  | EndpointConfig.other _ =>
    Except.error (WErr.otherError "TypeError: not subscriptable")

/-- C8 counterexample: the combination of IPv6 with TLS is NOT rejected when
the Component is constructed.  The construction-time check
`_check_native_endpoint` accepts a `tcp` endpoint dict with `version = 6`
and `tls = True` (a bool passes the tls type check and the version is never
inspected), and only the connect-time `_create_transport_endpoint` raises
`RuntimeError: TLS on IPv6 not implemented`.  Likewise an unknown endpoint
`type` passes construction and only fails (assertion) at connect time. -/
theorem C8_counterexample :
    _check_native_endpoint
        (EndpointConfig.dict
          ⟨"tcp", "h", 443, "", 6, 10, some (TlsConfig.tlsBool true)⟩) =
      Except.ok () ∧
    _create_transport_endpoint
        (EndpointConfig.dict
          ⟨"tcp", "h", 443, "", 6, 10, some (TlsConfig.tlsBool true)⟩) =
      Except.error (WErr.runtimeError "TLS on IPv6 not implemented") ∧
    _check_native_endpoint
        (EndpointConfig.dict ⟨"bogus", "h", 443, "", 4, 10, none⟩) =
      Except.ok () ∧
    _create_transport_endpoint
        (EndpointConfig.dict ⟨"bogus", "h", 443, "", 4, 10, none⟩) =
      Except.error WErr.assertionError :=
  ⟨rfl, rfl, rfl, rfl⟩

/-- C8 (amended): construction-time validation (`_check_native_endpoint`)
checks only the general shape of the endpoint configuration — a non-dict,
non-endpoint-provider value and a `tls` value of invalid type are rejected
at construction — while an unknown endpoint `type` and the IPv6-with-TLS
combination pass construction and are rejected only at connect time, when
`_create_transport_endpoint` raises. -/
theorem C8_construction_vs_connect (ty host : String) (port : Nat)
    (path : String) (ver timeout : Nat) (b : Bool)
    (hty1 : ty ≠ "tcp") (hty2 : ty ≠ "unix") :
    _check_native_endpoint
        (EndpointConfig.dict
          ⟨ty, host, port, path, ver, timeout, some (TlsConfig.tlsBool b)⟩) =
      Except.ok () ∧
    _create_transport_endpoint
        (EndpointConfig.dict
          ⟨"tcp", host, port, path, 6, timeout,
            some (TlsConfig.tlsBool true)⟩) =
      Except.error (WErr.runtimeError "TLS on IPv6 not implemented") ∧
    _create_transport_endpoint
        (EndpointConfig.dict ⟨ty, host, port, path, ver, timeout, none⟩) =
      Except.error WErr.assertionError ∧
    (∀ s, _check_native_endpoint (EndpointConfig.other s) =
      Except.error (WErr.valueError
        "endpoint configuration must be a dict or IStreamClientEndpoint provider")) ∧
    (∀ s, _check_native_endpoint
        (EndpointConfig.dict
          ⟨ty, host, port, path, ver, timeout,
            some (TlsConfig.tlsOther s)⟩) =
      Except.error (WErr.valueError
        "tls configuration must be a dict, CertificateOptions or IOpenSSLClientConnectionCreator provider")) := by
  refine ⟨rfl, rfl, ?_, fun s => rfl, fun s => rfl⟩
  simp [_create_transport_endpoint, hty1, hty2]

/-- Witness for C8's amended statement at a concrete unknown endpoint
type. -/
theorem C8_witness :
    _create_transport_endpoint
        (EndpointConfig.dict ⟨"serial", "h", 0, "", 4, 10, none⟩) =
      Except.error WErr.assertionError := by
  have h := C8_construction_vs_connect "serial" "h" 0 "" 4 10 true
    (by decide) (by decide)
  exact h.2.2.1

/-- A concrete WAMP serializer instance (`MsgPackSerializer` /
`JsonSerializer`, batched or not).  Both serializer modules are modelled as
importable (the `ImportError` fallbacks of the source never fire). -/
inductive Serializer where
  | msgpack (batched : Bool)
  | json (batched : Bool)
deriving Repr, DecidableEq

/-- Model of `_unique_list` (source lines 79-84): unique elements, preserving order
(first occurrences kept), written with an explicit `seen` accumulator. -/
def _unique_go (seen : List String) : List String → List String
  | [] => []
  | x :: rest =>
    if x ∈ seen then _unique_go seen rest
    else x :: _unique_go (x :: seen) rest

/-- Entry point of `_unique_list` (empty `seen` set). -/
def _unique_list (seq : List String) : List String := _unique_go [] seq

/-- The `for serializer_id in serializer_ids:` loop of
`_create_transport_serializers` (source lines 126-150): `msgpack` and
`json` each contribute a batched and a plain instance; any other id raises
`RuntimeError: Unknown serializer '<id>'` immediately (the id is quoted in
the Python message; the quotes are omitted here). -/
def buildSerializers : List String → Except WErr (List Serializer)
  | [] => Except.ok []
  | serializer_id :: rest =>
    if serializer_id = "msgpack" then
      match buildSerializers rest with
      | Except.error e => Except.error e
      | Except.ok s =>
        Except.ok (Serializer.msgpack true :: Serializer.msgpack false :: s)
    else if serializer_id = "json" then
      match buildSerializers rest with
      | Except.error e => Except.error e
      | Except.ok s =>
        Except.ok (Serializer.json true :: Serializer.json false :: s)
    else
      Except.error
        (WErr.runtimeError ("Unknown serializer " ++ serializer_id))

/-- Model of `_create_transport_serializers` (source lines 115-152): take the
configured id list (deduplicated) or the default `[msgpack, json]`, then run
the construction loop.  (The Python loop appends as it goes and raises on
the first unknown id, discarding what was built; modelling the recursion
error-first is observationally identical because the partial list is never
returned.) -/
def _create_transport_serializers (serializersCfg : Option (List String)) :
    Except WErr (List Serializer) :=
  match serializersCfg with
  | some l => buildSerializers (_unique_list l)
  | none => buildSerializers ["msgpack", "json"]

/-- Model of `_create_transport_serializer` (source lines 87-112), the single
serializer used for rawsocket transports (note the source typo
`mgspack.batched`). -/
def _create_transport_serializer (serializer_id : String) :
    Except WErr Serializer :=
  if serializer_id = "msgpack" ∨ serializer_id = "mgspack.batched" then
    if serializer_id = "mgspack.batched" then
      Except.ok (Serializer.msgpack true)
    else Except.ok (Serializer.msgpack false)
  else if serializer_id = "json" ∨ serializer_id = "json.batched" then
    if serializer_id = "json.batched" then Except.ok (Serializer.json true)
    else Except.ok (Serializer.json false)
  else
    Except.error
      (WErr.runtimeError ("could not create serializer for " ++ serializer_id))

/-- Model of a transport configuration dict (the fields the factory and
endpoint builders read). -/
structure TransportConfig where
  type_ : String
  url : String
  serializers : Option (List String)
  serializer : Option String
  endpoint : EndpointConfig
deriving Repr, DecidableEq

/-- The WAMP protocol factory produced by `_create_transport_factory`. -/
inductive Factory where
  | websocketF (url : String) (serializers : List Serializer)
  | rawsocketF (serializer : Serializer)
deriving Repr, DecidableEq

/-- Model of `_create_transport_factory` (source lines 155-170): websocket transports
build their serializer set via `_create_transport_serializers` (errors
propagate), rawsocket transports build a single serializer (default id
`json`), anything else hits `assert False`. -/
def _create_transport_factory (tc : TransportConfig) : Except WErr Factory :=
  if tc.type_ = "websocket" then
    match _create_transport_serializers tc.serializers with
    | Except.error e => Except.error e
    | Except.ok ss => Except.ok (Factory.websocketF tc.url ss)
  else if tc.type_ = "rawsocket" then
    match _create_transport_serializer (tc.serializer.getD "json") with
    | Except.error e => Except.error e
    | Except.ok s => Except.ok (Factory.rawsocketF s)
  else Except.error WErr.assertionError

/-- Model of `Component._connect_transport` (source lines 280-286): build the factory
then the endpoint; either construction failure propagates unchanged to the
caller (the connection attempt), which is how a configuration error reaches
the classification in `start`.  The actual `endpoint.connect(factory)` call
is the external network operation; its construction inputs are returned. -/
def _connect_transport (tc : TransportConfig) :
    Except WErr (Factory × TEndpoint) :=
  match _create_transport_factory tc with
  | Except.error e => Except.error e
  | Except.ok f =>
    match _create_transport_endpoint tc.endpoint with
    | Except.error e => Except.error e
    | Except.ok ep => Except.ok (f, ep)

/-- The serializer ids the construction loop of
`_create_transport_serializers` recognises. -/
def knownSerializer (s : String) : Bool := s == "msgpack" || s == "json"

/-- Membership in `_unique_go`: exactly the elements of the input not
already seen. -/
theorem mem_unique_go :
    ∀ (l seen : List String) (x : String),
      x ∈ _unique_go seen l ↔ (x ∈ l ∧ x ∉ seen)
  | [], seen, x => by simp [_unique_go]
  | y :: rest, seen, x => by
    by_cases hy : y ∈ seen
    · have ih := mem_unique_go rest seen x
      simp only [_unique_go, if_pos hy, ih, List.mem_cons]
      constructor
      · exact fun h => ⟨Or.inr h.1, h.2⟩
      · rintro ⟨hx | hx, hns⟩
        · exact absurd (hx ▸ hy) hns
        · exact ⟨hx, hns⟩
    · have ih := mem_unique_go rest (y :: seen) x
      simp only [_unique_go, if_neg hy, List.mem_cons, ih]
      constructor
      · rintro (hx | ⟨hxr, hns⟩)
        · exact ⟨Or.inl hx, hx ▸ hy⟩
        · exact ⟨Or.inr hxr, fun hc => hns (Or.inr hc)⟩
      · rintro ⟨hx | hxr, hns⟩
        · exact Or.inl hx
        · by_cases hxy : x = y
          · exact Or.inl hxy
          · exact Or.inr ⟨hxr, by simp [hxy, hns]⟩

/-- If the id list contains an unrecognised serializer id, the construction
loop raises `RuntimeError: Unknown serializer ...` naming some unrecognised
id of the list (the first one). -/
theorem buildSerializers_unknown :
    ∀ ids : List String, ids.all knownSerializer = false →
      ∃ b, b ∈ ids ∧ knownSerializer b = false ∧
        buildSerializers ids =
          Except.error (WErr.runtimeError ("Unknown serializer " ++ b))
  | [], h => by simp at h
  | id :: rest, h => by
    by_cases h1 : id = "msgpack"
    · have hrest : rest.all knownSerializer = false := by
        subst h1
        simpa [knownSerializer] using h
      obtain ⟨b, hb, hkb, herr⟩ := buildSerializers_unknown rest hrest
      exact ⟨b, List.mem_cons_of_mem _ hb, hkb, by
        simp [buildSerializers, h1, herr]⟩
    · by_cases h2 : id = "json"
      · have hrest : rest.all knownSerializer = false := by
          subst h2
          simpa [knownSerializer] using h
        obtain ⟨b, hb, hkb, herr⟩ := buildSerializers_unknown rest hrest
        exact ⟨b, List.mem_cons_of_mem _ hb, hkb, by
          simp [buildSerializers, h2, herr]⟩
      · refine ⟨id, List.mem_cons_self _ _, ?_, ?_⟩
        · simp [knownSerializer, h1, h2]
        · simp [buildSerializers, h1, h2]

/-- C9: a websocket transport configuration naming an unrecognised
serializer id makes the serializer-set construction — and hence the factory
construction performed during a connection attempt (`_connect_transport`) —
raise `RuntimeError: Unknown serializer ...`; and a `RuntimeError` raised
from a connection attempt is neither an `ApplicationError` nor an SSL error,
so the engine's `else: raise` branch propagates it from `start` after a
single attempt, terminal, with no retry. -/
theorem C9_unknown_serializer_terminal (ids : List String) (url : String)
    (serOpt : Option String) (ep : EndpointConfig)
    (hbad : ids.all knownSerializer = false) :
    (∃ b, b ∈ ids ∧ knownSerializer b = false ∧
      _create_transport_factory ⟨"websocket", url, some ids, serOpt, ep⟩ =
        Except.error (WErr.runtimeError ("Unknown serializer " ++ b)) ∧
      _connect_transport ⟨"websocket", url, some ids, serOpt, ep⟩ =
        Except.error (WErr.runtimeError ("Unknown serializer " ++ b))) ∧
    (∀ (msg : String) (oc : Nat → Outcome) (fuel : Nat)
        (ts : List Transport) (cursor k : Nat),
      (ts.getD (cursor % ts.length) default).can_reconnect = true →
      oc k = Outcome.failure (WErr.runtimeError msg) →
      startRun oc (fuel + 1) ts cursor k =
        (StartResult.raised (WErr.runtimeError msg)
          (ts.set (cursor % ts.length)
            ((ts.getD (cursor % ts.length) default).record_attempt)),
          [Ev.attempted (cursor % ts.length)])) := by
  constructor
  · obtain ⟨b, hb, hkb⟩ := List.all_eq_false.mp hbad
    have hbu : b ∈ _unique_list ids :=
      (mem_unique_go ids [] b).mpr ⟨hb, by simp⟩
    have hallu : (_unique_list ids).all knownSerializer = false :=
      List.all_eq_false.mpr ⟨b, hbu, hkb⟩
    obtain ⟨b2, hb2u, hkb2, herr⟩ := buildSerializers_unknown _ hallu
    simp only [_unique_list] at herr
    refine ⟨b2, ((mem_unique_go ids [] b2).mp hb2u).1, hkb2, ?_, ?_⟩
    · simp [_create_transport_factory, _create_transport_serializers,
        _unique_list, herr]
    · simp [_connect_transport, _create_transport_factory,
        _create_transport_serializers, _unique_list, herr]
  · intro msg oc fuel ts cursor k ht he
    exact startRun_raises_other oc fuel ts cursor k _ ht he rfl rfl

/-- Witness for C9 at the concrete unknown id `cbor` and a concrete engine
run failing with the resulting `RuntimeError`. -/
theorem C9_witness :
    (["cbor"].all knownSerializer = false) ∧
    ((∃ b, b ∈ ["cbor"] ∧ knownSerializer b = false ∧
      _create_transport_factory
          ⟨"websocket", "wsurl", some ["cbor"], none, EndpointConfig.stream⟩ =
        Except.error (WErr.runtimeError ("Unknown serializer " ++ b)) ∧
      _connect_transport
          ⟨"websocket", "wsurl", some ["cbor"], none, EndpointConfig.stream⟩ =
        Except.error (WErr.runtimeError ("Unknown serializer " ++ b))) ∧
    (∀ (msg : String) (oc : Nat → Outcome) (fuel : Nat)
        (ts : List Transport) (cursor k : Nat),
      (ts.getD (cursor % ts.length) default).can_reconnect = true →
      oc k = Outcome.failure (WErr.runtimeError msg) →
      startRun oc (fuel + 1) ts cursor k =
        (StartResult.raised (WErr.runtimeError msg)
          (ts.set (cursor % ts.length)
            ((ts.getD (cursor % ts.length) default).record_attempt)),
          [Ev.attempted (cursor % ts.length)]))) :=
  ⟨by decide,
    C9_unknown_serializer_terminal ["cbor"] "wsurl" none EndpointConfig.stream
      (by decide)⟩

/-- Model of the Python value passed as `components` to `_run`: a
`Component` instance (identified abstractly by a number), a Python list of
values, or any other object. -/
inductive PyArg where
  | comp (c : Nat)
  | listOf (l : List PyArg)
  | other (descr : String)

/-- Mirrors `isinstance(c, Component)` (source line 390). -/
def PyArg.isComp : PyArg → Bool
  | PyArg.comp _ => true
  | _ => false

/-- The `for c in components:` type check of `_run` (source lines 389-394):
raise `ValueError` at the first element that is not a `Component` instance;
this loop runs to completion before any component is started.  (The Python
message interpolates the offending type; the interpolation is omitted
here.) -/
def checkComponents : List PyArg → Option WErr
  | [] => none
  | a :: rest =>
    if a.isComp then checkComponents rest
    else some (WErr.valueError
      "components must be a list of Component objects - encountered item of wrong type")

/-- Model of the `_run` argument handling (source lines 379-413): a bare `Component` is
wrapped in a singleton list; a non-list (checked with `type(...) != list`)
raises `ValueError`; then every element is checked to be a `Component`
before the start loop runs.  The result pairs the list of components
actually started (empty whenever a `ValueError` is raised, since both checks
precede the `c.start(reactor)` loop at lines 408-413) with the raised error,
if any. -/
def _run (components : PyArg) : List Nat × Option WErr :=
  match components with
  | PyArg.comp c =>
    match checkComponents [PyArg.comp c] with
    | some e => ([], some e)
    | none => ([c], none)
  | PyArg.listOf l =>
    match checkComponents l with
    | some e => ([], some e)
    | none =>
      (l.filterMap (fun a =>
        match a with
        | PyArg.comp c => some c
        | _ => none), none)
  | PyArg.other d =>
    ([], some (WErr.valueError
      ("components must be a list of Component objects - encountered " ++ d)))

/-- A list containing a non-`Component` element fails the element check. -/
theorem checkComponents_of_bad :
    ∀ l : List PyArg, l.all PyArg.isComp = false →
      checkComponents l =
        some (WErr.valueError
          "components must be a list of Component objects - encountered item of wrong type")
  | [], h => by simp at h
  | a :: rest, h => by
    by_cases ha : a.isComp
    · have hrest : rest.all PyArg.isComp = false := by
        simpa [ha] using h
      simpa [checkComponents, ha] using checkComponents_of_bad rest hrest
    · simp [checkComponents, ha]

/-- C10: `_run` rejects malformed arguments with a `ValueError` before
starting anything: an argument that is neither a `Component` instance nor a
list raises, and a list containing an element that is not a `Component`
instance raises; in both cases the set of started components is empty. -/
theorem C10_run_rejects_nonComponents :
    (∀ d, _run (PyArg.other d) =
      ([], some (WErr.valueError
        ("components must be a list of Component objects - encountered " ++ d)))) ∧
    (∀ l : List PyArg, l.all PyArg.isComp = false →
      _run (PyArg.listOf l) =
        ([], some (WErr.valueError
          "components must be a list of Component objects - encountered item of wrong type"))) := by
  refine ⟨fun d => rfl, fun l hl => ?_⟩
  simp [_run, checkComponents_of_bad l hl]

/-- Witness for C10: a non-Component, non-list argument and a list with a
stray non-Component element are both rejected with no component started. -/
theorem C10_witness :
    _run (PyArg.other "int") =
      ([], some (WErr.valueError
        "components must be a list of Component objects - encountered int")) ∧
    _run (PyArg.listOf [PyArg.comp 0, PyArg.other "str"]) =
      ([], some (WErr.valueError
        "components must be a list of Component objects - encountered item of wrong type")) :=
  ⟨C10_run_rejects_nonComponents.1 "int",
    C10_run_rejects_nonComponents.2 [PyArg.comp 0, PyArg.other "str"]
      (by decide)⟩
